import Mathlib

/-!
Shallow embedding of `src/src/libs/libjpeg_turbo/lv_libjpeg_turbo.c`, the LVGL
libjpeg-turbo image decoder adapter: the signature sniffer, the header probe
(`decoder_info` / `get_jpeg_size`), the decode adapter (`decode_jpeg_file`
with its `setjmp`/`longjmp` failure recovery), the open path (`decoder_open`
with its `try_cache` lookup and cache insert) and the cache invalidate
callback (`cache_invalidate_cb`).

External collaborators are embedded as oracles:
* the virtual filesystem is a map from file name to full byte content;
* the libjpeg engine is a structure of functions describing, per input byte
  stream, the header-parse outcome and the points at which the engine signals
  an internal error (which in C triggers `error_exit` → `longjmp`);
* allocation outcomes (`lv_draw_buf_malloc` for the output buffer and the
  cache's entry-record allocation inside `lv_cache_add`) are boolean
  parameters.

The cache module itself (`lv_cache.c`) is not among the sources; its
operations are modelled from the spec (section 4.4), as noted on each of the
corresponding definitions.

Pixel buffers are modelled by addresses drawn from a counter (`nextAddr`):
each allocation consumes one address, so two distinct decodes never return
pointer-identical buffers, and the content of a returned buffer is tracked as
a byte list alongside its address.
-/

set_option autoImplicit false

namespace LvLibjpegTurbo

/-- A virtual filesystem: maps a file name to its full byte content, or
`none` when the file cannot be opened/read.  Bytes are naturals below 256. -/
abbrev FS := String → Option (List Nat)

/-- `#define JPEG_SIGNATURE 0xFFD8FF` -/
def JPEG_SIGNATURE : Nat := 0xFFD8FF

/-- `#define IS_JPEG_SIGNATURE(x) (((x) & 0x00FFFFFF) == JPEG_SIGNATURE)`.
The argument is a `uint32_t`; `& 0x00FFFFFF` is `% 2 ^ 24` on naturals. -/
def IS_JPEG_SIGNATURE (x : Nat) : Bool :=
  x % 0x1000000 == JPEG_SIGNATURE

/-- The 32-bit word `decoder_info` obtains from the first four file bytes:
`lv_fs_read(&f, &jpg_signature, sizeof(uint32_t), &rn)` stores the bytes
straight into a `uint32_t`, so on the little-endian targets this adapter runs
on, the first byte of the file is the least significant byte of the word. -/
def read_u32_le (b0 b1 b2 b3 : Nat) : Nat :=
  b0 + b1 * 0x100 + b2 * 0x10000 + b3 * 0x1000000

/-- The same four bytes read as the spec's words describe them for the
signature check: "interpreted as a big-endian 32-bit value" (spec section
4.1).  Defined from the spec, to be compared against what the code
computes. -/
def read_u32_be_spec (b0 b1 b2 b3 : Nat) : Nat :=
  b0 * 0x1000000 + b1 * 0x10000 + b2 * 0x100 + b3

/-- The 4-byte signature read in `decoder_info`, including the
`rn != sizeof(jpg_signature)` short-read check: `none` models a file shorter
than four bytes. -/
def read_signature : List Nat → Option Nat
  | b0 :: b1 :: b2 :: b3 :: _ => some (read_u32_le b0 b1 b2 b3)
  | _ => none

/-- The external libjpeg-turbo engine, per input byte buffer:
* `header` — outcome of `jpeg_read_header`: `some (w, h)` gives
  `image_width`/`image_height`; `none` models the engine signalling an error
  through `error_exit`/`longjmp` (or returning a code other than
  `JPEG_HEADER_OK`, which `get_jpeg_size` treats the same way).  With the
  default unscaled decompression parameters used here, these dimensions also
  equal `output_width`/`output_height` after `jpeg_start_decompress`.
* `startOk` — whether `jpeg_start_decompress` completes without an error jump.
* `failAtRow` — `some k` means the `jpeg_read_scanlines` call for row `k`
  signals an internal error (takes effect only if row `k` is reached).
* `rowBytes` — the bytes the engine places in the scanline buffer for row `k`.
* `finishOk` — whether `jpeg_finish_decompress` completes without an error
  jump. -/
structure Engine where
  header : List Nat → Option (Nat × Nat)
  startOk : List Nat → Bool
  failAtRow : List Nat → Option Nat
  rowBytes : List Nat → Nat → List Nat
  finishOk : List Nat → Bool

/-- `alloc_file`: opens the file, seeks to its end to learn its size, reads
the whole content into a fresh buffer.  Every internal failure (open, seek,
tell, allocation, short read) frees whatever it had acquired and returns
`NULL`, so the observable behaviour collapses to the file content or
`none`. -/
def alloc_file (fs : FS) (filename : String) : Option (List Nat) :=
  fs filename

/-- Observable outcome of one `decode_jpeg_file` call: the returned pointer
(`none` is `NULL`), the bytes of the returned buffer, the final value of the
`*size` out-parameter, how many times each acquired resource was released
(`lv_free(data)`, `lv_draw_buf_free(output_buffer)`,
`jpeg_destroy_decompress`), whether the output buffer was ever allocated, and
the allocator cursor after the call. -/
structure DecodeResult where
  ret : Option Nat
  retBuf : List Nat
  sizeOut : Nat
  dataFrees : Nat
  outputFrees : Nat
  engineDestroys : Nat
  outputAllocated : Bool
  nextAddr : Nat
deriving DecidableEq

/-- The `setjmp` recovery path taken while `output_buffer` is still `NULL`
(and, observably the same, the fall-through when `lv_draw_buf_malloc`
failed): there is no output buffer to free, `jpeg_destroy_decompress` runs
once, `lv_free(data)` runs once, `*size` is untouched, `NULL` is returned. -/
def jump_no_output (size0 nextAddr : Nat) : DecodeResult :=
  { ret := none, retBuf := [], sizeOut := size0, dataFrees := 1,
    outputFrees := 0, engineDestroys := 1, outputAllocated := false,
    nextAddr := nextAddr }

/-- The `setjmp` recovery path taken after `output_buffer` was allocated:
`lv_draw_buf_free(output_buffer)` once, `jpeg_destroy_decompress` once,
`lv_free(data)` once, `NULL` returned.  `*size` was already set to the full
output size before the scanline loop and is not reset here. -/
def jump_with_output (obs nextAddr : Nat) : DecodeResult :=
  { ret := none, retBuf := [], sizeOut := obs, dataFrees := 1,
    outputFrees := 1, engineDestroys := 1, outputAllocated := true,
    nextAddr := nextAddr }

/-- One `lv_memcpy(cur_pos, buffer[0], stride)` pass: exactly
`stride = output_width * JPEG_PIXEL_SIZE` bytes are copied out of the
scanline buffer, whatever the engine put there. -/
def stride_chunk (w : Nat) (row : List Nat) : List Nat :=
  (row ++ List.replicate (w * 3) 0).take (w * 3)

/-- The scanline loop: rows `0, 1, ..., n - 1` copied in order into the
output buffer. -/
def copy_rows (eng : Engine) (data : List Nat) (w : Nat) : Nat → List Nat
  | 0 => []
  | n + 1 => copy_rows eng data w n ++ stride_chunk w (eng.rowBytes data n)

/-- The tail of `decode_jpeg_file` after the scanline loop has run to
completion: `jpeg_finish_decompress` (which may itself signal an error, in
which case the recovery path discards the complete buffer), then
`jpeg_destroy_decompress`, `lv_free(data)`, and return of the output
buffer. -/
def decode_finish (eng : Engine) (data : List Nat) (w h addr : Nat) :
    DecodeResult :=
  if eng.finishOk data then
    { ret := some addr, retBuf := copy_rows eng data w h,
      sizeOut := w * h * 3, dataFrees := 1, outputFrees := 0,
      engineDestroys := 1, outputAllocated := true, nextAddr := addr + 1 }
  else jump_with_output (w * h * 3) (addr + 1)

/-- `decode_jpeg_file(filename, size)`.  `bufAllocOk` models whether
`lv_draw_buf_malloc` succeeds; `nextAddr` is the address a fresh output
buffer would occupy; `size0` is the value `*size` holds on entry (the caller
`decoder_open` passes a local initialized to 0). -/
def decode_jpeg_file (eng : Engine) (fs : FS) (bufAllocOk : Bool)
    (nextAddr : Nat) (filename : String) (size0 : Nat) : DecodeResult :=
  match alloc_file fs filename with
  | none =>
      -- "can't load file": nothing was acquired, nothing to release
      { ret := none, retBuf := [], sizeOut := size0, dataFrees := 0,
        outputFrees := 0, engineDestroys := 0, outputAllocated := false,
        nextAddr := nextAddr }
  | some data =>
      -- jpeg_create_decompress, jpeg_mem_src, jpeg_read_header
      match eng.header data with
      | none => jump_no_output size0 nextAddr
      | some (w, h) =>
          if eng.startOk data then
            -- jpeg_start_decompress succeeded; allocate the output buffer
            if bufAllocOk then
              -- the write `if(size) *size = output_buffer_size;` happens
              -- here, before the scanline loop
              match eng.failAtRow data with
              | some k =>
                  if k < h then
                    -- jpeg_read_scanlines jumps out mid-loop
                    jump_with_output (w * h * 3) (nextAddr + 1)
                  else decode_finish eng data w h nextAddr
              | none => decode_finish eng data w h nextAddr
            else
              -- output_buffer == NULL: the loop and the `*size` write are
              -- skipped; whether jpeg_finish_decompress then errors or not,
              -- the cleanup is observably the same as the no-buffer jump
              jump_no_output size0 nextAddr
          else jump_no_output size0 nextAddr

/-- `lv_cache_entry_t` source-identity tag: `LV_CACHE_SRC_TYPE_PATH` or
`LV_CACHE_SRC_TYPE_POINTER`. -/
inductive CacheSrcType where
  | path
  | pointer
deriving DecidableEq

/-- The `src` field of a cache entry: a `const void *` holding either an
owned `lv_strdup` copy of a path (modelled by the string value) or a raw
source address. -/
inductive CacheSrcVal where
  | str (s : String)
  | addr (a : Nat)
deriving DecidableEq

/-- Modelled from the spec: `lv_cache_entry_t` — the cache module
`lv_cache.c` is not among the sources here, so the entry record follows the
spec's `CacheEntry` (section 3) restricted to the fields `decoder_open` and
`cache_invalidate_cb` actually touch.  `data` is the decoded-pixel pointer
(`none` is `NULL`). -/
structure CacheEntry where
  data : Option Nat
  size : Nat
  weight : Nat
  srcType : CacheSrcType
  src : CacheSrcVal
  refCount : Nat
deriving DecidableEq

/-- Modelled from the spec: `findBySource` / `lv_cache_find_by_src(NULL, fn,
LV_CACHE_SRC_TYPE_PATH)` — "linear/indexed lookup by identity equality
(`FilePath` compared by string equality)" (section 4.4).  Returns the index
and value of the first entry whose identity is the given path. -/
def lv_cache_find_by_src : List CacheEntry → String → Option (Nat × CacheEntry)
  | [], _ => none
  | e :: rest, fn =>
      if e.srcType = CacheSrcType.path ∧ e.src = CacheSrcVal.str fn then
        some (0, e)
      else
        match lv_cache_find_by_src rest fn with
        | some (i, e') => some (i + 1, e')
        | none => none

/-- Reference-count bump applied to the entry a lookup hit. -/
def bump1 (e : CacheEntry) : CacheEntry :=
  { e with refCount := e.refCount + 1 }

/-- Modelled from the spec: "On hit, increments `refCount` and returns the
entry" (section 4.4) — the bump applied at the hit index. -/
def bump_ref : List CacheEntry → Nat → List CacheEntry
  | [], _ => []
  | e :: rest, 0 => bump1 e :: rest
  | e :: rest, i + 1 => e :: bump_ref rest i

/-- An image source handed to the decoder; `lv_image_src_get_type`
distinguishes a file-path string (`LV_IMAGE_SRC_FILE`) from a raw pointer
source. -/
inductive Source where
  | file (path : String)
  | pointer (a : Nat)
deriving DecidableEq

/-- The fields of `lv_image_decoder_dsc_t` this adapter reads and writes. -/
structure Dsc where
  src : Source
  imgData : Option Nat
  cacheEntry : Option Nat
deriving DecidableEq

/-- Global cache state: the published entries, in insertion order, plus the
allocator cursor for fresh pixel-buffer addresses. -/
structure SysState where
  entries : List CacheEntry
  nextAddr : Nat
deriving DecidableEq

/-- `lv_result_t` -/
inductive LvResult where
  | ok
  | invalid
deriving DecidableEq

/-- `try_cache(dsc)`: under the cache lock, for a file source, look the path
up; on a hit store the cached data pointer and the entry in the descriptor
and report `LV_RESULT_OK`; otherwise report `LV_RESULT_INVALID` (`none`
here).  The hit bumps the entry's reference count (spec section 4.4). -/
def try_cache (st : SysState) (dsc : Dsc) : Option (SysState × Dsc) :=
  match dsc.src with
  | Source.pointer _ => none
  | Source.file fn =>
      match lv_cache_find_by_src st.entries fn with
      | none => none
      | some (i, e) =>
          some ({ st with entries := bump_ref st.entries i },
                { dsc with imgData := e.data, cacheEntry := some i })

/-- Observable outcome of one `decoder_open` call.  `decodedImg`,
`decodedSize` and `decodeBuf` mirror the locals `decoded_img` /
`decoded_size` and the bytes behind them; `decodeCalls` and `fileReads`
instrument whether the decode engine and the file loader were invoked at
all; the frees-counters are those of the inner `decode_jpeg_file` call, and
`openLevelFrees` counts frees of the decoded buffer performed by
`decoder_open` itself. -/
structure OpenResult where
  res : LvResult
  dsc : Dsc
  st : SysState
  decodeCalls : Nat
  fileReads : Nat
  decodedImg : Option Nat
  decodedSize : Nat
  decodeBuf : List Nat
  dataFrees : Nat
  outputFrees : Nat
  engineDestroys : Nat
  openLevelFrees : Nat
deriving DecidableEq

/-- `decoder_open(decoder, dsc, args)`.  `t` is the measured elapsed-tick
weight; `cacheAllocOk` models, from the spec (section 4.4, `lv_cache.c` not
among the sources), whether `lv_cache_add` can allocate the entry record:
insert "fails only if the underlying allocation of the entry record fails" —
in particular it takes the data pointer as handed to it, `NULL` or not.
The code calls `decode_jpeg_file` and passes `decoded_img` straight to
`lv_cache_add` without a `NULL` check; on a successful add it fills in the
entry fields (weight, invalidate callback, `lv_strdup`-owned path identity —
the pointer-identity branch is guarded by a condition that already held
before) and publishes, then stores `lv_cache_get_data(cache)` in the
descriptor and reports `LV_RESULT_OK`. -/
def decoder_open (eng : Engine) (fs : FS) (bufAllocOk cacheAllocOk : Bool)
    (t : Nat) (st : SysState) (dsc : Dsc) : OpenResult :=
  match try_cache st dsc with
  | some (st', dsc') =>
      { res := LvResult.ok, dsc := dsc', st := st', decodeCalls := 0,
        fileReads := 0, decodedImg := none, decodedSize := 0, decodeBuf := [],
        dataFrees := 0, outputFrees := 0, engineDestroys := 0,
        openLevelFrees := 0 }
  | none =>
      match dsc.src with
      | Source.pointer _ =>
          { res := LvResult.invalid, dsc := dsc, st := st, decodeCalls := 0,
            fileReads := 0, decodedImg := none, decodedSize := 0,
            decodeBuf := [], dataFrees := 0, outputFrees := 0,
            engineDestroys := 0, openLevelFrees := 0 }
      | Source.file fn =>
          let d := decode_jpeg_file eng fs bufAllocOk st.nextAddr fn 0
          if cacheAllocOk then
            let entry : CacheEntry :=
              match dsc.src with
              | Source.file f =>
                  { data := d.ret, size := d.sizeOut, weight := t,
                    srcType := CacheSrcType.path,
                    src := CacheSrcVal.str f, refCount := 1 }
              | Source.pointer a =>
                  { data := d.ret, size := d.sizeOut, weight := t,
                    srcType := CacheSrcType.pointer,
                    src := CacheSrcVal.addr a, refCount := 1 }
            { res := LvResult.ok,
              dsc := { dsc with
                       imgData := entry.data
                       cacheEntry := some st.entries.length },
              st := { entries := st.entries ++ [entry], nextAddr := d.nextAddr },
              decodeCalls := 1, fileReads := 1, decodedImg := d.ret,
              decodedSize := d.sizeOut, decodeBuf := d.retBuf,
              dataFrees := d.dataFrees, outputFrees := d.outputFrees,
              engineDestroys := d.engineDestroys, openLevelFrees := 0 }
          else
            -- lv_cache_add failed: unlock and return LV_RESULT_INVALID.
            -- The decoded buffer (d.ret) is neither published nor freed
            -- anywhere on this path: openLevelFrees stays 0.
            { res := LvResult.invalid, dsc := dsc,
              st := { st with nextAddr := d.nextAddr },
              decodeCalls := 1, fileReads := 1, decodedImg := d.ret,
              decodedSize := d.sizeOut, decodeBuf := d.retBuf,
              dataFrees := d.dataFrees, outputFrees := d.outputFrees,
              engineDestroys := d.engineDestroys, openLevelFrees := 0 }

/-- `LV_COLOR_FORMAT_RGB888`, the only output format of this codec. -/
inductive ColorFormat where
  | rgb888
deriving DecidableEq

/-- The header `decoder_info` fills in on success. -/
structure LvImageHeader where
  cf : ColorFormat
  w : Nat
  h : Nat
deriving DecidableEq

/-- `get_jpeg_size`: loads the file again and runs the engine in header-only
mode; engine state and file buffer are released on every path inside it. -/
def get_jpeg_size (eng : Engine) (fs : FS) (filename : String) :
    Option (Nat × Nat) :=
  match alloc_file fs filename with
  | none => none
  | some data => eng.header data

/-- `decoder_info(decoder, src, header)`: only file sources are supported;
open the file, read the 4-byte signature (failing on a short read), check
`IS_JPEG_SIGNATURE`, then probe the dimensions with `get_jpeg_size`.  The
`jpg`/`jpeg` extension test in the code only selects a log message and does
not affect the result.  `none` models `LV_RESULT_INVALID`. -/
def decoder_info (eng : Engine) (fs : FS) (src : Source) :
    Option LvImageHeader :=
  match src with
  | Source.pointer _ => none
  | Source.file fn =>
      match fs fn with
      | none => none
      | some content =>
          match read_signature content with
          | none => none
          | some sig =>
              if IS_JPEG_SIGNATURE sig then
                match get_jpeg_size eng fs fn with
                | none => none
                | some (w, h) =>
                    some { cf := ColorFormat.rgb888, w := w, h := h }
              else none

/-- What `cache_invalidate_cb` frees: the arguments of its `lv_free` calls on
the entry's `src` and on the entry's `data`. -/
structure InvalidateEffect where
  srcFrees : List CacheSrcVal
  dataFrees : List (Option Nat)
deriving DecidableEq

/-- `cache_invalidate_cb(entry)`:
`if(entry->src_type == LV_CACHE_SRC_TYPE_PATH) lv_free((void *)entry->src);`
then `lv_free((void *)entry->data);` unconditionally. -/
def cache_invalidate_cb (e : CacheEntry) : InvalidateEffect :=
  { srcFrees := if e.srcType = CacheSrcType.path then [e.src] else [],
    dataFrees := [e.data] }

/-! ## Concrete fixtures used by witnesses and counterexamples -/

/-- A concrete file name. -/
def fileA : String := "a.jpg"

/-- A concrete file name whose content is not JPEG-signed. -/
def fileZ : String := "z.bin"

/-- A concrete well-behaved engine: every stream parses as a 2 by 2 image,
every scanline decodes to six bytes, no injected failures. -/
def engW : Engine :=
  { header := fun _ => some (2, 2), startOk := fun _ => true,
    failAtRow := fun _ => none, rowBytes := fun _ _ => [1, 2, 3, 4, 5, 6],
    finishOk := fun _ => true }

/-- A concrete engine whose header parse always signals an error. -/
def engFailHeader : Engine :=
  { header := fun _ => none, startOk := fun _ => false,
    failAtRow := fun _ => none, rowBytes := fun _ _ => [],
    finishOk := fun _ => false }

/-- A concrete engine that parses a 2 by 2 header but signals an internal
error at the very first scanline read. -/
def engFailRow : Engine :=
  { header := fun _ => some (2, 2), startOk := fun _ => true,
    failAtRow := fun _ => some 0, rowBytes := fun _ _ => [1, 2, 3, 4, 5, 6],
    finishOk := fun _ => true }

/-- A concrete filesystem: one JPEG-signed file and one zero-signed file. -/
def fsW : FS := fun p =>
  if p = fileA then some [0xFF, 0xD8, 0xFF, 0xE0]
  else if p = fileZ then some [0x00, 0x00, 0x00, 0x00]
  else none

/-! ## Helper lemmas -/

theorem stride_chunk_length (w : Nat) (row : List Nat) :
    (stride_chunk w row).length = w * 3 := by
  simp [stride_chunk]

theorem copy_rows_length (eng : Engine) (data : List Nat) (w : Nat) :
    ∀ n, (copy_rows eng data w n).length = n * (w * 3) := by
  intro n
  induction n with
  | zero => simp [copy_rows]
  | succ m ih =>
      simp [copy_rows, ih, stride_chunk_length, Nat.succ_mul]

/-! ## C4 -/

/-- C4, counterexample to the claim as stated: for the 4-byte input
`FF D8 FF E0` the signature check accepts, yet the low 24 bits of those bytes
interpreted as a big-endian 32-bit value are `0xD8FFE0`, not the marker
`0xFFD8FF`; so "accepts iff the big-endian low 24 bits equal the marker" is
false at this input. -/
theorem C4_counterexample :
    ¬ (IS_JPEG_SIGNATURE (read_u32_le 0xFF 0xD8 0xFF 0xE0) = true ↔
        read_u32_be_spec 0xFF 0xD8 0xFF 0xE0 % 0x1000000 = 0xFFD8FF) := by
  decide

/-- C4, amended: for every 4-byte input, the signature check accepts iff the
low 24 bits of the four bytes interpreted as a little-endian 32-bit value
equal the fixed 3-byte marker `0xFFD8FF` — equivalently, iff the first three
bytes are `FF D8 FF` — and it returns false on any mismatch. -/
theorem C4_signature_le (b0 b1 b2 b3 : Nat) (h0 : b0 < 256) (h1 : b1 < 256)
    (h2 : b2 < 256) :
    IS_JPEG_SIGNATURE (read_u32_le b0 b1 b2 b3) = true ↔
      (b0 = 0xFF ∧ b1 = 0xD8 ∧ b2 = 0xFF) := by
  simp only [IS_JPEG_SIGNATURE, read_u32_le, JPEG_SIGNATURE, beq_iff_eq]
  rw [Nat.add_mul_mod_self_right, Nat.mod_eq_of_lt (by omega)]
  omega

/-- C4, witness for the amended theorem at the input `FF D8 FF E0`. -/
theorem C4_signature_le_witness :
    IS_JPEG_SIGNATURE (read_u32_le 0xFF 0xD8 0xFF 0xE0) = true :=
  (C4_signature_le 0xFF 0xD8 0xFF 0xE0 (by decide) (by decide)
    (by decide)).mpr ⟨rfl, rfl, rfl⟩

/-! ## C5 -/

/-- C5: a 4-byte input `FF D8 FF E0` passes the signature check and
`00 00 00 00` fails it; moreover, inside `decoder_info` a file beginning
`FF D8 FF E0` gets past the signature gate (inspection succeeds whenever the
header probe does), while a file beginning `00 00 00 00` is rejected whatever
the engine would have said. -/
theorem C5_signature_examples :
    (IS_JPEG_SIGNATURE (read_u32_le 0xFF 0xD8 0xFF 0xE0) = true) ∧
    (IS_JPEG_SIGNATURE (read_u32_le 0x00 0x00 0x00 0x00) = false) ∧
    (∀ (eng : Engine) (fs : FS) (fn : String) (rest : List Nat) (w h : Nat),
        fs fn = some (0xFF :: 0xD8 :: 0xFF :: 0xE0 :: rest) →
        eng.header (0xFF :: 0xD8 :: 0xFF :: 0xE0 :: rest) = some (w, h) →
        decoder_info eng fs (Source.file fn) =
          some { cf := ColorFormat.rgb888, w := w, h := h }) ∧
    (∀ (eng : Engine) (fs : FS) (fn : String) (rest : List Nat),
        fs fn = some (0x00 :: 0x00 :: 0x00 :: 0x00 :: rest) →
        decoder_info eng fs (Source.file fn) = none) := by
  refine ⟨by decide, by decide, ?_, ?_⟩
  · intro eng fs fn rest w h hfs hh
    simp [decoder_info, hfs, read_signature, get_jpeg_size, alloc_file, hh,
      show IS_JPEG_SIGNATURE (read_u32_le 0xFF 0xD8 0xFF 0xE0) = true from
        by decide]
  · intro eng fs fn rest hfs
    simp [decoder_info, hfs, read_signature,
      show IS_JPEG_SIGNATURE (read_u32_le 0x00 0x00 0x00 0x00) = false from
        by decide]

/-- C5, witness: the two inspection conjuncts applied to the concrete
filesystem and engine. -/
theorem C5_signature_examples_witness :
    decoder_info engW fsW (Source.file fileA) =
        some { cf := ColorFormat.rgb888, w := 2, h := 2 } ∧
    decoder_info engW fsW (Source.file fileZ) = none :=
  ⟨C5_signature_examples.2.2.1 engW fsW fileA [] 2 2 (by decide) rfl,
   C5_signature_examples.2.2.2 engW fsW fileZ [] (by decide)⟩

/-! ## C8 -/

/-- C8: the invalidate callback frees the entry's identity string exactly
when the entry's identity kind is `PATH`, never frees the source of a
pointer-identified entry, and frees the data buffer unconditionally (exactly
one data free, on every entry). -/
theorem C8_invalidate_frees (e : CacheEntry) :
    (e.srcType = CacheSrcType.path →
        (cache_invalidate_cb e).srcFrees = [e.src]) ∧
    (e.srcType = CacheSrcType.pointer →
        (cache_invalidate_cb e).srcFrees = []) ∧
    (cache_invalidate_cb e).dataFrees = [e.data] := by
  cases he : e.srcType <;> simp [cache_invalidate_cb, he]

/-- C8, witness: the callback evaluated on a concrete path entry and a
concrete pointer entry. -/
theorem C8_invalidate_frees_witness :
    (cache_invalidate_cb
        ⟨some 0, 12, 5, CacheSrcType.path, CacheSrcVal.str fileA, 1⟩).srcFrees
      = [CacheSrcVal.str fileA] ∧
    (cache_invalidate_cb
        ⟨some 1, 12, 5, CacheSrcType.pointer, CacheSrcVal.addr 7, 1⟩).srcFrees
      = [] ∧
    (cache_invalidate_cb
        ⟨some 0, 12, 5, CacheSrcType.path, CacheSrcVal.str fileA, 1⟩).dataFrees
      = [some 0] :=
  ⟨(C8_invalidate_frees _).1 rfl, (C8_invalidate_frees _).2.1 rfl,
   (C8_invalidate_frees _).2.2⟩

/-! ## C2 -/

/-- C2: whenever the engine signals an internal error after initialization —
at header parse, at decompression start, or mid-scanline —
`decode_jpeg_file` returns the failure result `NULL`, frees the loaded file
byte buffer exactly once, destroys the engine state exactly once, and frees
the output buffer exactly once if (and only if) one had been allocated; it
never returns a partially filled buffer. -/
theorem C2_decode_failure_cleanup (eng : Engine) (fs : FS) (bufAllocOk : Bool)
    (nextAddr : Nat) (fn : String) (size0 : Nat) (data : List Nat)
    (hfs : fs fn = some data)
    (hfail : eng.header data = none ∨
      (eng.startOk data = false ∧ ∃ wh, eng.header data = some wh) ∨
      (∃ w h k, eng.header data = some (w, h) ∧ eng.startOk data = true ∧
        bufAllocOk = true ∧ eng.failAtRow data = some k ∧ k < h)) :
    (decode_jpeg_file eng fs bufAllocOk nextAddr fn size0).ret = none ∧
    (decode_jpeg_file eng fs bufAllocOk nextAddr fn size0).dataFrees = 1 ∧
    (decode_jpeg_file eng fs bufAllocOk nextAddr fn size0).engineDestroys
        = 1 ∧
    (decode_jpeg_file eng fs bufAllocOk nextAddr fn size0).outputFrees =
      (if (decode_jpeg_file eng fs bufAllocOk nextAddr fn
            size0).outputAllocated then 1 else 0) := by
  rcases hfail with hh | ⟨hs, ⟨⟨w, h⟩, hh⟩⟩ | ⟨w, h, k, hh, hs, hb, hfr, hkh⟩
  · simp [decode_jpeg_file, alloc_file, hfs, hh, jump_no_output]
  · simp [decode_jpeg_file, alloc_file, hfs, hh, hs, jump_no_output]
  · simp [decode_jpeg_file, alloc_file, hfs, hh, hs, hb, hfr, hkh,
      jump_with_output]

/-- C2, witness: a header-parse failure on the concrete JPEG-signed file. -/
theorem C2_decode_failure_cleanup_witness :
    (decode_jpeg_file engFailHeader fsW true 0 fileA 0).ret = none ∧
    (decode_jpeg_file engFailHeader fsW true 0 fileA 0).dataFrees = 1 ∧
    (decode_jpeg_file engFailHeader fsW true 0 fileA 0).engineDestroys = 1 ∧
    (decode_jpeg_file engFailHeader fsW true 0 fileA 0).outputFrees =
      (if (decode_jpeg_file engFailHeader fsW true 0 fileA
            0).outputAllocated then 1 else 0) :=
  C2_decode_failure_cleanup engFailHeader fsW true 0 fileA 0
    [0xFF, 0xD8, 0xFF, 0xE0] (by decide) (Or.inl rfl)

/-! ## C10 -/

/-- C10: `decode_jpeg_file` writes the full expected output size
`width * height * 3` into `*size` before the scanline loop runs, so on any
decode error occurring after the output buffer was allocated (a mid-scanline
error, or an error at finish) it returns `NULL` while leaving `*size` set to
that full size — the out-parameter is not reset on the failure path. -/
theorem C10_size_out_not_reset (eng : Engine) (fs : FS) (nextAddr : Nat)
    (fn : String) (size0 w h : Nat) (data : List Nat)
    (hfs : fs fn = some data) (hh : eng.header data = some (w, h))
    (hs : eng.startOk data = true)
    (hfail : (∃ k, eng.failAtRow data = some k ∧ k < h) ∨
      eng.finishOk data = false) :
    (decode_jpeg_file eng fs true nextAddr fn size0).ret = none ∧
    (decode_jpeg_file eng fs true nextAddr fn size0).sizeOut = w * h * 3 ∧
    (decode_jpeg_file eng fs true nextAddr fn size0).outputAllocated
        = true := by
  rcases hfail with ⟨k, hfr, hk⟩ | hfin
  · simp [decode_jpeg_file, alloc_file, hfs, hh, hs, hfr, hk,
      jump_with_output]
  · cases hfr : eng.failAtRow data with
    | none =>
        simp [decode_jpeg_file, alloc_file, hfs, hh, hs, hfr, decode_finish,
          hfin, jump_with_output]
    | some k =>
        by_cases hk : k < h
        · simp [decode_jpeg_file, alloc_file, hfs, hh, hs, hfr, hk,
            jump_with_output]
        · simp [decode_jpeg_file, alloc_file, hfs, hh, hs, hfr, hk,
            decode_finish, hfin, jump_with_output]

/-- C10, witness: the engine that dies at the first scanline of a 2 by 2
image leaves `*size` holding 12 while returning `NULL`. -/
theorem C10_size_out_not_reset_witness :
    (decode_jpeg_file engFailRow fsW true 0 fileA 0).ret = none ∧
    (decode_jpeg_file engFailRow fsW true 0 fileA 0).sizeOut = 2 * 2 * 3 ∧
    (decode_jpeg_file engFailRow fsW true 0 fileA 0).outputAllocated = true :=
  C10_size_out_not_reset engFailRow fsW 0 fileA 0 2 2 [0xFF, 0xD8, 0xFF, 0xE0]
    (by decide) rfl rfl (Or.inl ⟨0, rfl, by decide⟩)

/-! ## C1 -/

/-- C1: the claim fails on the code.  At a concrete input whose decode fails
(`decode_jpeg_file` returns `NULL`), `decoder_open` — which never checks
`decoded_img` for `NULL` before `lv_cache_add` — publishes a cache entry for
the path with `data = NULL` and size 0 and returns `LV_RESULT_OK`, and that
entry is reachable via `lv_cache_find_by_src`; so the spec's invariant that
every entry reachable via lookup has non-null data is violated. -/
theorem C1_null_data_cached :
    (decode_jpeg_file engFailHeader fsW true 0 fileA 0).ret = none ∧
    (decoder_open engFailHeader fsW true true 5 ⟨[], 0⟩
        ⟨Source.file fileA, none, none⟩).res = LvResult.ok ∧
    lv_cache_find_by_src
        (decoder_open engFailHeader fsW true true 5 ⟨[], 0⟩
          ⟨Source.file fileA, none, none⟩).st.entries fileA =
      some (0, ⟨none, 0, 5, CacheSrcType.path, CacheSrcVal.str fileA, 1⟩) := by
  decide

/-! ## C3 -/

/-- C3: the claim fails on the code.  At a concrete input where the decode
succeeds (a 12-byte buffer at address 0 is returned) and `lv_cache_add`
fails, `decoder_open` does return `LV_RESULT_INVALID` and caches nothing —
but the decoded buffer is never released: it was not freed inside
`decode_jpeg_file` (that call returned it) and `decoder_open` performs no
free of its own on this path, so the buffer leaks. -/
theorem C3_insert_failure_leak :
    (decoder_open engW fsW true false 5 ⟨[], 0⟩
        ⟨Source.file fileA, none, none⟩).res = LvResult.invalid ∧
    (decoder_open engW fsW true false 5 ⟨[], 0⟩
        ⟨Source.file fileA, none, none⟩).st.entries = [] ∧
    (decoder_open engW fsW true false 5 ⟨[], 0⟩
        ⟨Source.file fileA, none, none⟩).decodedImg = some 0 ∧
    (decoder_open engW fsW true false 5 ⟨[], 0⟩
        ⟨Source.file fileA, none, none⟩).decodedSize = 12 ∧
    (decoder_open engW fsW true false 5 ⟨[], 0⟩
        ⟨Source.file fileA, none, none⟩).outputFrees = 0 ∧
    (decoder_open engW fsW true false 5 ⟨[], 0⟩
        ⟨Source.file fileA, none, none⟩).openLevelFrees = 0 := by
  decide

/-! ## Cache lookup lemmas -/

/-- Bumping the reference count at any index changes neither whether a lookup
hits, nor the index it reports, nor anything in the entry it returns except
the count of the entry at the bumped index. -/
theorem lv_cache_find_by_src_bump_ref (fn : String) :
    ∀ (l : List CacheEntry) (i : Nat),
      lv_cache_find_by_src (bump_ref l i) fn =
        match lv_cache_find_by_src l fn with
        | none => none
        | some (j, e) => some (j, if j = i then bump1 e else e) := by
  intro l
  induction l with
  | nil => intro i; rfl
  | cons e rest ih =>
      intro i
      cases i with
      | zero =>
          by_cases hm : e.srcType = CacheSrcType.path ∧
              e.src = CacheSrcVal.str fn
          · simp [bump_ref, lv_cache_find_by_src, bump1, hm]
          · have hm' : ¬ ((bump1 e).srcType = CacheSrcType.path ∧
                (bump1 e).src = CacheSrcVal.str fn) := by
              simpa [bump1] using hm
            simp only [bump_ref, lv_cache_find_by_src, if_neg hm, if_neg hm']
            cases hr : lv_cache_find_by_src rest fn with
            | none => simp
            | some p =>
                obtain ⟨j, e'⟩ := p
                have hj : j + 1 ≠ 0 := by omega
                simp [hj]
      | succ n =>
          by_cases hm : e.srcType = CacheSrcType.path ∧
              e.src = CacheSrcVal.str fn
          · have h0 : (0 : Nat) ≠ n + 1 := by omega
            simp [bump_ref, lv_cache_find_by_src, hm, h0]
          · simp only [bump_ref, lv_cache_find_by_src, if_neg hm, ih n]
            cases hr : lv_cache_find_by_src rest fn with
            | none => simp
            | some p =>
                obtain ⟨j, e'⟩ := p
                by_cases hj : j = n
                · simp [hj]
                · have hj' : j + 1 ≠ n + 1 := by omega
                  simp [hj, hj']

/-- Appending a matching entry to a list on which lookup misses makes lookup
return exactly that entry, at the end of the list. -/
theorem find_append_of_none :
    ∀ (l : List CacheEntry) (e : CacheEntry) (fn : String),
      lv_cache_find_by_src l fn = none →
      e.srcType = CacheSrcType.path → e.src = CacheSrcVal.str fn →
      lv_cache_find_by_src (l ++ [e]) fn = some (l.length, e) := by
  intro l
  induction l with
  | nil =>
      intro e fn _ h1 h2
      simp [lv_cache_find_by_src, h1, h2]
  | cons a rest ih =>
      intro e fn hn h1 h2
      by_cases hm : a.srcType = CacheSrcType.path ∧ a.src = CacheSrcVal.str fn
      · simp [lv_cache_find_by_src, hm] at hn
      · have hrest : lv_cache_find_by_src rest fn = none := by
          revert hn
          simp only [lv_cache_find_by_src, if_neg hm]
          cases hr : lv_cache_find_by_src rest fn with
          | none => intro _; rfl
          | some p =>
              obtain ⟨j, e'⟩ := p
              intro hn
              simp at hn
        simp only [List.cons_append, lv_cache_find_by_src, if_neg hm,
          List.append_eq, ih e fn hrest h1 h2, List.length_cons]

/-- Every element of a ref-count-bumped list shares identity and data with an
element of the original list. -/
theorem mem_bump_ref :
    ∀ (l : List CacheEntry) (i : Nat) (e : CacheEntry), e ∈ bump_ref l i →
      ∃ e₀ ∈ l, e₀.srcType = e.srcType ∧ e₀.src = e.src ∧
        e₀.data = e.data := by
  intro l
  induction l with
  | nil => intro i e h; simp [bump_ref] at h
  | cons a rest ih =>
      intro i e h
      cases i with
      | zero =>
          rcases List.mem_cons.mp h with h | h
          · exact ⟨a, List.mem_cons_self a rest, by simp [h, bump1]⟩
          · exact ⟨e, List.mem_cons_of_mem a h, rfl, rfl, rfl⟩
      | succ n =>
          rcases List.mem_cons.mp h with h | h
          · exact ⟨a, List.mem_cons_self a rest, by simp [h]⟩
          · rcases ih n e h with ⟨e₀, he₀, hs⟩
            exact ⟨e₀, List.mem_cons_of_mem a he₀, hs⟩

/-! ## C6 -/

/-- C6: if an `open` of file `fn` succeeded, a second `open` of the same path
on the resulting state hits the cache: it returns OK with the identical data
pointer, and it performs no decode and no file read — whatever engine,
filesystem, allocation outcomes or tick weight the second call would have
used, since the hit path returns before either collaborator is invoked. -/
theorem C6_second_open_hits_cache (eng eng2 : Engine) (fs fs2 : FS)
    (ba ca ba2 ca2 : Bool) (t t2 : Nat) (st : SysState) (dsc dsc2 : Dsc)
    (fn : String) (h1 : dsc.src = Source.file fn)
    (h2 : dsc2.src = Source.file fn)
    (hok : (decoder_open eng fs ba ca t st dsc).res = LvResult.ok) :
    (decoder_open eng2 fs2 ba2 ca2 t2 (decoder_open eng fs ba ca t st dsc).st
        dsc2).res = LvResult.ok ∧
    (decoder_open eng2 fs2 ba2 ca2 t2 (decoder_open eng fs ba ca t st dsc).st
        dsc2).dsc.imgData
      = (decoder_open eng fs ba ca t st dsc).dsc.imgData ∧
    (decoder_open eng2 fs2 ba2 ca2 t2 (decoder_open eng fs ba ca t st dsc).st
        dsc2).decodeCalls = 0 ∧
    (decoder_open eng2 fs2 ba2 ca2 t2 (decoder_open eng fs ba ca t st dsc).st
        dsc2).fileReads = 0 := by
  obtain ⟨s1, d1, c1⟩ := dsc
  obtain ⟨s2, d2, c2⟩ := dsc2
  have h1' : s1 = Source.file fn := h1
  have h2' : s2 = Source.file fn := h2
  subst h1'
  subst h2'
  cases hfind : lv_cache_find_by_src st.entries fn with
  | some p =>
      obtain ⟨i, e⟩ := p
      simp [decoder_open, try_cache, hfind, lv_cache_find_by_src_bump_ref,
        bump1]
  | none =>
      cases ca with
      | false => simp [decoder_open, try_cache, hfind] at hok
      | true =>
          have hfa := find_append_of_none st.entries
            { data := (decode_jpeg_file eng fs ba st.nextAddr fn 0).ret,
              size := (decode_jpeg_file eng fs ba st.nextAddr fn 0).sizeOut,
              weight := t, srcType := CacheSrcType.path,
              src := CacheSrcVal.str fn, refCount := 1 } fn hfind rfl rfl
          simp only [decoder_open, try_cache, hfind]
          simp [hfa]

/-- C6, witness: two concrete opens of the same file. -/
theorem C6_second_open_hits_cache_witness :
    (decoder_open engW fsW true true 7
        (decoder_open engW fsW true true 5 ⟨[], 0⟩
          ⟨Source.file fileA, none, none⟩).st
        ⟨Source.file fileA, none, none⟩).res = LvResult.ok ∧
    (decoder_open engW fsW true true 7
        (decoder_open engW fsW true true 5 ⟨[], 0⟩
          ⟨Source.file fileA, none, none⟩).st
        ⟨Source.file fileA, none, none⟩).dsc.imgData
      = (decoder_open engW fsW true true 5 ⟨[], 0⟩
          ⟨Source.file fileA, none, none⟩).dsc.imgData ∧
    (decoder_open engW fsW true true 7
        (decoder_open engW fsW true true 5 ⟨[], 0⟩
          ⟨Source.file fileA, none, none⟩).st
        ⟨Source.file fileA, none, none⟩).decodeCalls = 0 ∧
    (decoder_open engW fsW true true 7
        (decoder_open engW fsW true true 5 ⟨[], 0⟩
          ⟨Source.file fileA, none, none⟩).st
        ⟨Source.file fileA, none, none⟩).fileReads = 0 :=
  C6_second_open_hits_cache engW engW fsW fsW true true true true 5 7
    ⟨[], 0⟩ ⟨Source.file fileA, none, none⟩ ⟨Source.file fileA, none, none⟩
    fileA rfl rfl (by decide)

/-! ## C7 -/

/-- When `decode_jpeg_file` returns a buffer (rather than `NULL`), the size it
wrote through `*size` and the byte length of the returned buffer both equal
`w * h * 3` for the dimensions the engine parsed from the file content. -/
theorem decode_success_size (eng : Engine) (fs : FS) (ba : Bool)
    (na : Nat) (fn : String) (s0 w h : Nat) (content : List Nat)
    (hfs : fs fn = some content) (hh : eng.header content = some (w, h))
    (a : Nat) (hret : (decode_jpeg_file eng fs ba na fn s0).ret = some a) :
    (decode_jpeg_file eng fs ba na fn s0).sizeOut = w * h * 3 ∧
    (decode_jpeg_file eng fs ba na fn s0).retBuf.length = w * h * 3 := by
  cases hst : eng.startOk content with
  | false =>
      simp [decode_jpeg_file, alloc_file, hfs, hh, hst, jump_no_output]
        at hret
  | true =>
      cases ba with
      | false =>
          simp [decode_jpeg_file, alloc_file, hfs, hh, hst, jump_no_output]
            at hret
      | true =>
          cases hfin : eng.finishOk content with
          | false =>
              cases hfr : eng.failAtRow content with
              | none =>
                  simp [decode_jpeg_file, alloc_file, hfs, hh, hst, hfr,
                    decode_finish, hfin, jump_with_output] at hret
              | some k =>
                  by_cases hk : k < h
                  · simp [decode_jpeg_file, alloc_file, hfs, hh, hst, hfr,
                      hk, jump_with_output] at hret
                  · simp [decode_jpeg_file, alloc_file, hfs, hh, hst, hfr,
                      hk, decode_finish, hfin, jump_with_output] at hret
          | true =>
              cases hfr : eng.failAtRow content with
              | none =>
                  refine ⟨?_, ?_⟩
                  · simp [decode_jpeg_file, alloc_file, hfs, hh, hst, hfr,
                      decode_finish, hfin]
                  · simp [decode_jpeg_file, alloc_file, hfs, hh, hst, hfr,
                      decode_finish, hfin, copy_rows_length]
                    ring
              | some k =>
                  by_cases hk : k < h
                  · simp [decode_jpeg_file, alloc_file, hfs, hh, hst, hfr,
                      hk, jump_with_output] at hret
                  · refine ⟨?_, ?_⟩
                    · simp [decode_jpeg_file, alloc_file, hfs, hh, hst, hfr,
                        hk, decode_finish, hfin]
                    · simp [decode_jpeg_file, alloc_file, hfs, hh, hst, hfr,
                        hk, decode_finish, hfin, copy_rows_length]
                      ring

/-- C7: on a cache miss, if inspection of a file reported dimensions
`w` by `h` (with the fixed RGB format) and the subsequent `open` actually
obtained a decoded buffer, then the published size and the byte length of
that buffer both equal `w * h * 3` from that inspection. -/
theorem C7_size_matches_inspect (eng : Engine) (fs : FS) (ba ca : Bool)
    (t : Nat) (st : SysState) (dsc : Dsc) (fn : String) (w h a : Nat)
    (h1 : dsc.src = Source.file fn)
    (hmiss : lv_cache_find_by_src st.entries fn = none)
    (hinfo : decoder_info eng fs (Source.file fn) =
      some { cf := ColorFormat.rgb888, w := w, h := h })
    (hdec : (decoder_open eng fs ba ca t st dsc).decodedImg = some a) :
    (decoder_open eng fs ba ca t st dsc).decodedSize = w * h * 3 ∧
    (decoder_open eng fs ba ca t st dsc).decodeBuf.length = w * h * 3 := by
  obtain ⟨s1, d1, c1⟩ := dsc
  have h1' : s1 = Source.file fn := h1
  subst h1'
  cases hfs : fs fn with
  | none => simp [decoder_info, hfs] at hinfo
  | some content =>
      cases hsig : read_signature content with
      | none => simp [decoder_info, hfs, hsig] at hinfo
      | some sig =>
          cases hsg : IS_JPEG_SIGNATURE sig with
          | false => simp [decoder_info, hfs, hsig, hsg] at hinfo
          | true =>
              cases hh : eng.header content with
              | none =>
                  simp [decoder_info, hfs, hsig, hsg, get_jpeg_size,
                    alloc_file, hh] at hinfo
              | some wh =>
                  obtain ⟨w', h'⟩ := wh
                  simp only [decoder_info, hfs, hsig, hsg, get_jpeg_size,
                    alloc_file, hh, if_true, Option.some.injEq,
                    LvImageHeader.mk.injEq] at hinfo
                  obtain ⟨-, rfl, rfl⟩ := hinfo
                  simp only [decoder_open, try_cache, hmiss] at hdec ⊢
                  cases ca with
                  | false =>
                      simp only [Bool.false_eq_true, if_false] at hdec ⊢
                      exact decode_success_size eng fs ba st.nextAddr fn 0
                        w' h' content hfs hh a hdec
                  | true =>
                      simp only [if_true] at hdec ⊢
                      exact decode_success_size eng fs ba st.nextAddr fn 0
                        w' h' content hfs hh a hdec

/-- C7, witness: inspect then open of the concrete 2 by 2 file. -/
theorem C7_size_matches_inspect_witness :
    (decoder_open engW fsW true true 5 ⟨[], 0⟩
        ⟨Source.file fileA, none, none⟩).decodedSize = 2 * 2 * 3 ∧
    (decoder_open engW fsW true true 5 ⟨[], 0⟩
        ⟨Source.file fileA, none, none⟩).decodeBuf.length = 2 * 2 * 3 :=
  C7_size_matches_inspect engW fsW true true 5 ⟨[], 0⟩
    ⟨Source.file fileA, none, none⟩ fileA 2 2 0 rfl rfl (by decide)
    (by decide)

/-! ## C9 -/

/-- C9: `decoder_open` never publishes a pointer-identified entry.  A pointer
source fails before any decode or insert (result invalid, state unchanged),
and after any `open` every cache entry either shares identity and data with
an entry that was already present, or is a fresh `PATH` entry whose identity
is an owned copy of the opened file path — so the pointer-identity insert
branch inside `decoder_open` is unreachable. -/
theorem C9_only_path_entries (eng : Engine) (fs : FS) (ba ca : Bool) (t : Nat)
    (st : SysState) (dsc : Dsc) :
    (∀ a, dsc.src = Source.pointer a →
        (decoder_open eng fs ba ca t st dsc).res = LvResult.invalid ∧
        (decoder_open eng fs ba ca t st dsc).st = st ∧
        (decoder_open eng fs ba ca t st dsc).decodeCalls = 0) ∧
    (∀ e ∈ (decoder_open eng fs ba ca t st dsc).st.entries,
        (∃ e₀ ∈ st.entries, e₀.srcType = e.srcType ∧ e₀.src = e.src ∧
          e₀.data = e.data) ∨
        (e.srcType = CacheSrcType.path ∧
          ∃ fn, dsc.src = Source.file fn ∧
            e.src = CacheSrcVal.str fn)) := by
  obtain ⟨s, d0, c0⟩ := dsc
  constructor
  · intro a ha
    have ha' : s = Source.pointer a := ha
    subst ha'
    simp [decoder_open, try_cache]
  · intro e he
    cases s with
    | pointer a =>
        simp [decoder_open, try_cache] at he
        exact Or.inl ⟨e, he, rfl, rfl, rfl⟩
    | file fn =>
        cases hfind : lv_cache_find_by_src st.entries fn with
        | some p =>
            obtain ⟨i, e'⟩ := p
            simp only [decoder_open, try_cache, hfind] at he
            exact Or.inl (mem_bump_ref st.entries i e he)
        | none =>
            cases ca with
            | false =>
                simp only [decoder_open, try_cache, hfind,
                  Bool.false_eq_true, if_false] at he
                exact Or.inl ⟨e, he, rfl, rfl, rfl⟩
            | true =>
                simp only [decoder_open, try_cache, hfind, if_true] at he
                rcases List.mem_append.mp he with hm | hm
                · exact Or.inl ⟨e, hm, rfl, rfl, rfl⟩
                · have he2 := List.mem_singleton.mp hm
                  subst he2
                  exact Or.inr ⟨rfl, fn, rfl, rfl⟩

/-- C9, witness: a pointer source is rejected with the cache untouched, and
the single entry a concrete file `open` inserts is a `PATH` entry carrying a
copy of the path. -/
theorem C9_only_path_entries_witness :
    ((decoder_open engW fsW true true 5 ⟨[], 0⟩
        ⟨Source.pointer 7, none, none⟩).res = LvResult.invalid ∧
      (decoder_open engW fsW true true 5 ⟨[], 0⟩
        ⟨Source.pointer 7, none, none⟩).st = ⟨[], 0⟩ ∧
      (decoder_open engW fsW true true 5 ⟨[], 0⟩
        ⟨Source.pointer 7, none, none⟩).decodeCalls = 0) ∧
    ((∃ e₀ ∈ (⟨[], 0⟩ : SysState).entries,
        e₀.srcType = CacheSrcType.path ∧
        e₀.src = CacheSrcVal.str fileA ∧ e₀.data = some 0) ∨
      ((CacheSrcType.path = CacheSrcType.path) ∧
        ∃ fn, (⟨Source.file fileA, none, none⟩ : Dsc).src = Source.file fn ∧
          CacheSrcVal.str fileA = CacheSrcVal.str fn)) :=
  ⟨(C9_only_path_entries engW fsW true true 5 ⟨[], 0⟩
      ⟨Source.pointer 7, none, none⟩).1 7 rfl,
   (C9_only_path_entries engW fsW true true 5 ⟨[], 0⟩
      ⟨Source.file fileA, none, none⟩).2
     ⟨some 0, 12, 5, CacheSrcType.path, CacheSrcVal.str fileA, 1⟩
     (by decide)⟩

end LvLibjpegTurbo
